import Mathlib

/-!
A verification development for the influencer discovery and qualification
pipeline of `src/influencer_inviteai/collector.py` (class `YouTubeCollector`).

Modelling conventions:
* Python float arithmetic on scores and rates is idealised over `ℚ`.
* Timestamps are modelled at day granularity as integers (`ℤ`); the quantity
  `(datetime.utcnow() - latest_date).days` becomes integer subtraction
  `now - published_day`.
* The external YouTube API is an environment value: a list of page responses
  (each either a transient failure or a page of channel items), and, attached
  to each channel item, the uploads-playlist sample and the batch video-stats
  results for that channel.
* MongoDB's `update_one({_id: ...}, {"$set": data}, upsert=True)` keyed by a
  unique `_id` index is modelled as replace-first-match-or-append on a list of
  documents.  Since the pipeline always writes every field of the profile
  schema, `$set` of all fields coincides with document replacement.
* Python `round(x, n)` (banker's rounding) is modelled exactly by
  `bankersRound`; `int(x)` (truncation toward zero) by `pyInt`.
* CPython's `set` iteration order is unspecified; keyword dedup is modelled
  with first-occurrence order, which no theorem below depends on.
* A page with an empty item list models a search response with no items (the
  loop breaks); the search items and the batch channel-info items for a page
  are identified, and the in-place merge of video metrics into the returned
  video dictionaries is not modelled (no claim concerns either point).
* The orchestrator aggregates session results in `as_completed` order; the
  properties proved about the run (per-id evaluation counts, membership) are
  order-independent, so sessions are aggregated in keyword order here.
-/

namespace InmaCollector

/-! ## String helpers (Python `in`, `str.strip`) -/

/-- `charsLeads n h` is true when the character list `n` is an initial segment
of `h`; helper for the substring test. -/
def charsLeads : List Char → List Char → Bool
  | [], _ => true
  | _ :: _, [] => false
  | a :: as, b :: bs => a == b && charsLeads as bs

/-- `charsHas n h`: the character list `n` occurs contiguously inside `h`. -/
def charsHas : List Char → List Char → Bool
  | needle, [] => needle.isEmpty
  | needle, c :: rest => charsLeads needle (c :: rest) || charsHas needle rest

/-- Python's substring test `needle in hay`. -/
def pyIn (needle hay : String) : Bool :=
  charsHas needle.toList hay.toList

/-- Python's `str.strip()`: drop leading and trailing whitespace. -/
def pyStrip (s : String) : String :=
  String.mk (((s.toList.dropWhile Char.isWhitespace).reverse.dropWhile Char.isWhitespace).reverse)

/-! ## Python numeric helpers -/

/-- Python's `round` to an integer: round half to even (banker's rounding). -/
def bankersRound (y : ℚ) : ℤ :=
  if (1 : ℚ)/2 < y - ⌊y⌋ then ⌊y⌋ + 1
  else if y - ⌊y⌋ < 1/2 then ⌊y⌋
  else if ⌊y⌋ % 2 = 0 then ⌊y⌋ else ⌊y⌋ + 1

/-- Python's `round(x, 2)`. -/
def pyRound2 (x : ℚ) : ℚ := (bankersRound (x * 100) : ℚ) / 100

/-- Python's `round(x, 1)`. -/
def pyRound1 (x : ℚ) : ℚ := (bankersRound (x * 10) : ℚ) / 10

/-- Python's `int(x)`: truncation toward zero. -/
def pyInt (x : ℚ) : ℤ := if 0 ≤ x then ⌊x⌋ else ⌈x⌉

/-! ## Data model -/

/-- One entry of the `stats_map` produced by `_fetch_video_stats` (a
`videos.list` batch call): view/like/comment counts for one video. -/
structure VideoStats where
  view_count : Nat
  like_count : Nat
  comment_count : Nat
deriving DecidableEq

/-- One recent upload as produced by `get_recent_videos` for a channel,
together with the outcome of the batch stats call for its id:
`stats = none` models a video id missing from the `videos.list` response. -/
structure Video where
  id : String
  title : String
  published_day : ℤ
  stats : Option VideoStats
deriving DecidableEq

/-- The `stats` sub-dictionary of a channel info object in `search_channels`. -/
structure ChannelStats where
  subscribers : Nat
  video_count : Nat
  view_count : Nat
deriving DecidableEq

/-- The `channel_info` dictionary built in `search_channels` from one item of
the batch `channels.list` response.  The `email` field stands for the result of
the e-mail regex extraction over the description (its value is irrelevant to
every claim, so it is carried as data). -/
structure ChannelInfo where
  id : String
  title : String
  description : String
  email : Option String
  stats : ChannelStats
  inma_score : ℚ
deriving DecidableEq

/-- The `final_profile` dictionary assembled at the end of
`deep_analyze_channel` and persisted to the `influencers` collection. -/
structure FinalProfile where
  id : String
  title : String
  description : String
  email : Option String
  subscribers : Nat
  avg_views : ℤ
  upload_cycle : ℚ
  keywords : List String
  inma_score : ℚ
deriving DecidableEq

/-! ## Keyword extraction (`re.findall(r'[가-힣a-zA-Z]{2,}', ...)`) -/

/-- Characters matched by the keyword-token regex class `[가-힣a-zA-Z]`. -/
def isKwChar (c : Char) : Bool :=
  if ('a' ≤ c ∧ c ≤ 'z') ∨ ('A' ≤ c ∧ c ≤ 'Z') ∨ ('가' ≤ c ∧ c ≤ '힣') then true else false

/-- Split a character list into the maximal runs of keyword characters
(the accumulator holds the current run, reversed). -/
def kwRuns : List Char → List Char → List (List Char)
  | acc, [] => if acc.isEmpty then [] else [acc.reverse]
  | acc, c :: rest =>
    if isKwChar c then kwRuns (c :: acc) rest
    else if acc.isEmpty then kwRuns [] rest else acc.reverse :: kwRuns [] rest

/-- Deduplicate keeping the first occurrence (models `set(...)` up to the
unspecified CPython iteration order). -/
def dedupFirst (l : List String) : List String :=
  l.foldl (fun acc s => if acc.contains s then acc else acc ++ [s]) []

/-- `keywords = set(re.findall(r'[가-힣a-zA-Z]{2,}', " ".join(titles)))`,
then `list(keywords)[:10]`. -/
def extractKeywords (titles : List String) : List String :=
  (dedupFirst (((kwRuns [] (String.intercalate " " titles).toList).filter
    (fun t => 2 ≤ t.length)).map (fun t => String.mk t))).take 10

/-! ## Activity scoring (`deep_analyze_channel`) -/

/-- `video_dates[0]` of the recent-uploads sample (the newest upload). -/
def latestDay : List Video → ℤ
  | [] => 0
  | v :: _ => v.published_day

/-- Consecutive gaps `dates[i] - dates[i+1]` between the sampled uploads. -/
def gaps : List ℤ → List ℤ
  | a :: b :: rest => (a - b) :: gaps (b :: rest)
  | _ => []

/-- `avg_interval = sum(intervals)/len(intervals) if intervals else 30`. -/
def avgInterval (videos : List Video) : ℚ :=
  if (gaps (videos.map Video.published_day)).isEmpty then 30
  else ((gaps (videos.map Video.published_day)).sum : ℚ) /
    ((gaps (videos.map Video.published_day)).length : ℚ)

/-- Number of sampled videos whose id is present in the batch stats map. -/
def validStatsCount (videos : List Video) : Nat :=
  (videos.filterMap Video.stats).length

/-- Sum of `view_count` over the sampled videos that have stats. -/
def totalViews (videos : List Video) : Nat :=
  ((videos.filterMap Video.stats).map VideoStats.view_count).sum

/-- `avg_views = total_views / valid_videos_count`. -/
def avgViews (videos : List Video) : ℚ :=
  (totalViews videos : ℚ) / (validStatsCount videos : ℚ)

/-- `engagement_rate = 0 if subscribers == 0 else (avg_views/subscribers)*100`. -/
def engagementRate (subscribers : Nat) (videos : List Video) : ℚ :=
  if subscribers = 0 then 0 else (avgViews videos / (subscribers : ℚ)) * 100

/-- The retained `recency_score` of `deep_analyze_channel`: `0.5` when the
newest upload is more than 180 days old, else `1.0` (the dormant reject at
365 days is a separate branch of `deep_analyze_channel`). -/
def recencyScore (d : ℤ) : ℚ :=
  if 180 < d then 1/2 else 1

/-- `consistency_multiplier`: `1.5` when `avg_interval ≤ 7`, `1.2` when
`≤ 14`, else `1.0`. -/
def consistencyMultiplier (avg : ℚ) : ℚ :=
  if avg ≤ 7 then 3/2 else if avg ≤ 14 then 6/5 else 1

/-- `deep_analyze_channel`: the deep-analysis filter and scorer.  Takes the
channel info and the environment's recent-uploads sample (with the batch-stats
outcome attached per video); returns the final profile on qualification,
`none` on rejection.  Mirrors the source's rejection order: no uploads →
dormant check → no sample has stats → engagement below 2%. -/
def deep_analyze_channel (now : ℤ) (ch : ChannelInfo) (videos : List Video) :
    Option FinalProfile :=
  if videos.isEmpty then none
  else if 365 < now - latestDay videos then none
  else if validStatsCount videos = 0 then none
  else if engagementRate ch.stats.subscribers videos < 2 then none
  else some {
    id := ch.id
    title := ch.title
    description := ch.description
    email := ch.email
    subscribers := ch.stats.subscribers
    avg_views := pyInt (avgViews videos)
    upload_cycle := pyRound1 (avgInterval videos)
    keywords := extractKeywords ((videos.take 5).map Video.title)
    inma_score := pyRound2 (engagementRate ch.stats.subscribers videos * 10 *
      consistencyMultiplier (avgInterval videos) * recencyScore (now - latestDay videos)) }

/-! ## The per-candidate filter chain (`search_channels` loop body) -/

/-- One item of the batch `channels.list` response for a discovery page,
together with the uploads/stats environment for that channel.  `email` stands
for the regex extraction result over the description. -/
structure PageItem where
  id : String
  title : String
  description : String
  email : Option String
  subscribers : Nat
  video_count : Nat
  view_count : Nat
  videos : List Video
deriving DecidableEq

/-- One successful discovery page: the channel items and whether the search
response carried a `nextPageToken`. -/
structure Page where
  items : List PageItem
  nextPageToken : Bool
deriving DecidableEq

/-- The `channel_info` dictionary built for one response item. -/
def mkChannelInfo (it : PageItem) : ChannelInfo :=
  { id := it.id
    title := it.title
    description := it.description
    email := it.email
    stats := { subscribers := it.subscribers, video_count := it.video_count,
               view_count := it.view_count }
    inma_score := 0 }

/-- `full_text = channel_info["title"] + " " + channel_info["description"]`. -/
def fullText (it : PageItem) : String :=
  it.title ++ " " ++ it.description

/-- The configured denylist of sensitive terms. -/
def BLACKLIST : List String :=
  ["도박", "코인", "주식", "정치", "가상화폐", "토토", "홀덤", "카지노", "FX", "성인", "19금"]

/-- `any(bad_word in full_text for bad_word in BLACKLIST)`. -/
def blacklisted (it : PageItem) : Bool :=
  BLACKLIST.any (fun w => pyIn w (fullText it))

/-- The context soft-score step: when a context keyword is supplied and occurs
in `full_text`, add `+10` to the candidate's running `inma_score`. -/
def applyContextBonus (ctx : Option String) (it : PageItem) (ci : ChannelInfo) :
    ChannelInfo :=
  match ctx with
  | none => ci
  | some k => if pyIn k (fullText it) then { ci with inma_score := ci.inma_score + 10 } else ci

/-- The minimum-size filter: reject when `subscribers < 1000`, or
`video_count < 5`, or the description strips to empty. -/
def passesSizeFilter (ci : ChannelInfo) : Bool :=
  if ci.stats.subscribers < 1000 then false
  else if ci.stats.video_count < 5 then false
  else if (pyStrip ci.description).isEmpty then false
  else true

/-- The full per-candidate pipeline of the `search_channels` loop body:
blacklist reject, then context soft score, then size filter, then deep
analysis.  Returns the qualified final profile, or `none` when the candidate
is rejected at any stage. -/
def processItem (now : ℤ) (ctx : Option String) (it : PageItem) : Option FinalProfile :=
  if blacklisted it then none
  else
    if passesSizeFilter (applyContextBonus ctx it (mkChannelInfo it)) then
      deep_analyze_channel now (applyContextBonus ctx it (mkChannelInfo it)) it.videos
    else none

/-! ## One keyword session (`search_channels`) -/

/-- The mutable state of one `search_channels` invocation, instrumented with
the list of channel ids that reached the filter chain (`evals`, one entry per
loop-body execution for an item) and the documents written to the
`influencers` collection (`saves`, one entry per `save_to_mongo` call). -/
structure SessState where
  results : List (FinalProfile × List Video)
  attempts : Nat
  evals : List String
  saves : List FinalProfile
deriving DecidableEq

/-- The state at the start of `search_channels`. -/
def initState : SessState := { results := [], attempts := 0, evals := [], saves := [] }

/-- Processing of one item inside the page loop (after the limit check):
the item reaches the filter chain; on qualification the profile is persisted
and appended to the results. -/
def pageStep (now : ℤ) (ctx : Option String) (it : PageItem) (s : SessState) : SessState :=
  match processItem now ctx it with
  | some p => { s with results := s.results ++ [(p, it.videos)],
                       evals := s.evals ++ [it.id],
                       saves := s.saves ++ [p] }
  | none => { s with evals := s.evals ++ [it.id] }

/-- The `for item in stats_response` loop: before each item, stop once
`len(results) >= limit`. -/
def processPage (now : ℤ) (ctx : Option String) (limit : Nat) :
    List PageItem → SessState → SessState
  | [], s => s
  | it :: rest, s =>
    if limit ≤ s.results.length then s
    else processPage now ctx limit rest (pageStep now ctx it s)

/-- The `while len(results) < limit and attempts < max_attempts` loop of
`search_channels` (`max_attempts = 20`).  The environment is the stream of
page fetch outcomes; `Except.error` models a transient network/quota failure
raised by a batch call for that page, which the `except` handler answers with
`break`.  An empty item list or a missing `nextPageToken` also breaks. -/
def searchGo (now : ℤ) (ctx : Option String) (limit : Nat) :
    List (Except Unit Page) → SessState → SessState
  | [], s => s
  | pg :: env, s =>
    if limit ≤ s.results.length then s
    else if 20 ≤ s.attempts then s
    else
      match pg with
      | Except.error _ => { s with attempts := s.attempts + 1 }
      | Except.ok p =>
        if p.items.isEmpty then { s with attempts := s.attempts + 1 }
        else
          if p.nextPageToken then
            searchGo now ctx limit env
              (processPage now ctx limit p.items { s with attempts := s.attempts + 1 })
          else processPage now ctx limit p.items { s with attempts := s.attempts + 1 }

/-- One full `search_channels` session for one keyword. -/
def runSession (now : ℤ) (ctx : Option String) (limit : Nat)
    (env : List (Except Unit Page)) : SessState :=
  searchGo now ctx limit env initState

/-- The list returned by `search_channels`. -/
def search_channels (now : ℤ) (ctx : Option String) (env : List (Except Unit Page))
    (limit : Nat) : List (FinalProfile × List Video) :=
  (runSession now ctx limit env).results

/-! ## The orchestrator (`__main__` thread pool) -/

/-- The orchestrator run: one independent session per keyword (each worker
builds its own collector; the sessions share no state in the source).  The
per-session environments stand for each keyword's API responses. -/
def orchestrate (now : ℤ) (ctx : Option String) (limit : Nat)
    (envs : List (List (Except Unit Page))) : List SessState :=
  envs.map (runSession now ctx limit)

/-- All channel ids that reached the filter chain during one orchestrator
run, across all keyword sessions. -/
def allEvals (now : ℤ) (ctx : Option String) (limit : Nat)
    (envs : List (List (Except Unit Page))) : List String :=
  ((orchestrate now ctx limit envs).map SessState.evals).flatten

/-! ## Persistence (`save_to_mongo`: `update_one` with `$set` and `upsert=True`) -/

/-- MongoDB `update_one({_id: doc._id}, {"$set": doc}, upsert=True)` against a
collection with the unique `_id` index: replace the first (hence, under the
index invariant, the only) document with that `_id`, or insert the document
when no match exists. -/
def update_one (st : List FinalProfile) (doc : FinalProfile) : List FinalProfile :=
  match st with
  | [] => [doc]
  | d :: rest => if d.id == doc.id then doc :: rest else d :: update_one rest doc

/-- Apply a pipeline run's sequence of `save_to_mongo` writes to a store. -/
def applyRun (st : List FinalProfile) (saves : List FinalProfile) : List FinalProfile :=
  saves.foldl update_one st

/-- `st.find?` by document id. -/
def lookupDoc (st : List FinalProfile) (i : String) : Option FinalProfile :=
  st.find? (fun d => d.id == i)

/-- The last write for a given id in a sequence of saves. -/
def lastWrite : List FinalProfile → String → Option FinalProfile
  | [], _ => none
  | d :: rest, i =>
    match lastWrite rest i with
    | some e => some e
    | none => if d.id = i then some d else none

/-! ## Concrete inputs used by counterexamples and witnesses -/

/-- A single recent upload, 2 days old at `now = 1000`, with 100 views. -/
def okVideo : Video := { id := "v1", title := "", published_day := 998, stats := some ⟨100, 0, 0⟩ }

/-- Channel of 50 subscribers used for the deep-analysis witness. -/
def wCh : ChannelInfo :=
  { id := "w", title := "t", description := "d", email := none,
    stats := { subscribers := 50, video_count := 5, view_count := 0 }, inma_score := 0 }

/-- The profile that `deep_analyze_channel 1000 wCh [okVideo]` produces. -/
def wProf : FinalProfile :=
  { id := "w", title := "t", description := "d", email := none, subscribers := 50,
    avg_views := 100, upload_cycle := 30, keywords := [], inma_score := 2000 }

/-- Five uploads, 6 days apart, 150 views each (newest 2 days old at 1000). -/
def c1Videos : List Video :=
  [ { id := "a", title := "", published_day := 998, stats := some ⟨150, 0, 0⟩ },
    { id := "b", title := "", published_day := 992, stats := some ⟨150, 0, 0⟩ },
    { id := "c", title := "", published_day := 986, stats := some ⟨150, 0, 0⟩ },
    { id := "d", title := "", published_day := 980, stats := some ⟨150, 0, 0⟩ },
    { id := "e", title := "", published_day := 974, stats := some ⟨150, 0, 0⟩ } ]

/-- A candidate whose title contains the context keyword `"의류"` and that
qualifies: 5000 subscribers, 10 videos, engagement 3%, upload cycle 6 days. -/
def c1Item : PageItem :=
  { id := "c1", title := "의류 채널", description := "의류 리뷰", email := none,
    subscribers := 5000, video_count := 10, view_count := 0, videos := c1Videos }

/-- A candidate that reaches the filter chain but is size-rejected (0 subs). -/
def dupItem : PageItem :=
  { id := "dup", title := "t", description := "d", email := none,
    subscribers := 0, video_count := 0, view_count := 0, videos := [] }

/-- A one-page environment surfacing `dupItem`. -/
def dupEnv : List (Except Unit Page) :=
  [Except.ok { items := [dupItem], nextPageToken := false }]

/-- A page whose single candidate reaches the filter chain. -/
def c3Page : Page := { items := [dupItem], nextPageToken := false }

/-- A disqualified single-upload sample whose engagement is exactly 2%. -/
def c4Videos : List Video :=
  [ { id := "v", title := "", published_day := 8, stats := some ⟨100, 0, 0⟩ } ]

/-- 5000-subscriber channel: engagement of `c4Videos` is exactly 2.00%. -/
def c4Ch : ChannelInfo :=
  { id := "c4", title := "t", description := "d", email := none,
    stats := { subscribers := 5000, video_count := 10, view_count := 0 }, inma_score := 0 }

/-- A channel whose newest upload is 400 days old at `now = 1000`. -/
def c5Video : Video := { id := "v5", title := "", published_day := 600, stats := some ⟨9999, 0, 0⟩ }

/-- Channel used for the dormant-reject witness. -/
def c5Ch : ChannelInfo :=
  { id := "c5", title := "t", description := "d", email := none,
    stats := { subscribers := 100000, video_count := 50, view_count := 0 }, inma_score := 0 }

/-- A candidate sitting exactly on the 1000-subscriber boundary. -/
def c6Item : PageItem :=
  { id := "c6", title := "t", description := "desc", email := none,
    subscribers := 1000, video_count := 10, view_count := 0, videos := [] }

/-- A blacklisted candidate with a million subscribers. -/
def c7Item : PageItem :=
  { id := "c7", title := "도박 전문 채널", description := "구독자 많은 채널", email := none,
    subscribers := 1000000, video_count := 100, view_count := 0, videos := [] }

/-! ## Helper lemmas -/

/-- The context soft-score step touches only the running `inma_score`, so the
size filter is unaffected by it. -/
theorem passesSizeFilter_applyContextBonus (ctx : Option String) (it : PageItem)
    (ci : ChannelInfo) :
    passesSizeFilter (applyContextBonus ctx it ci) = passesSizeFilter ci := by
  cases ctx with
  | none => rfl
  | some k =>
    by_cases h : pyIn k (fullText it) = true
    · simp only [applyContextBonus, if_pos h]
      cases ci
      rfl
    · simp only [applyContextBonus, if_neg h]

/-- The deep analysis never reads the candidate's running `inma_score`. -/
theorem deep_analyze_channel_inma_score (now : ℤ) (ci : ChannelInfo) (x : ℚ)
    (videos : List Video) :
    deep_analyze_channel now { ci with inma_score := x } videos =
      deep_analyze_channel now ci videos := by
  cases ci
  rfl

/-! ## Claim theorems -/

/-- C4: for a channel evaluated by the activity scorer whose sample is
non-empty, not dormant, and has at least one sample with stats, the scorer
rejects exactly when the engagement rate is below 2% — where the engagement
rate is average views over subscribers times 100, and 0 for 0 subscribers;
in particular a rate of exactly 2.00 is accepted. -/
theorem C4_engagement_threshold (now : ℤ) (ch : ChannelInfo) (videos : List Video)
    (hne : videos ≠ []) (hrec : now - latestDay videos ≤ 365)
    (hstats : 1 ≤ validStatsCount videos) :
    ((deep_analyze_channel now ch videos).isNone = true ↔
      engagementRate ch.stats.subscribers videos < 2) := by
  have h1 : videos.isEmpty = false := by
    cases videos with
    | nil => exact absurd rfl hne
    | cons a l => rfl
  rw [deep_analyze_channel, h1]
  simp only [Bool.false_eq_true, if_false,
    if_neg (by omega : ¬ 365 < now - latestDay videos),
    if_neg (by omega : ¬ validStatsCount videos = 0)]
  split
  next h => simpa using h
  next h => simpa using h

/-- C4 witness: a single-upload sample with 100 views on a 5000-subscriber
channel sits exactly at engagement 2.00%, satisfying the hypotheses. -/
theorem C4_engagement_threshold_witness :
    c4Videos ≠ [] ∧ (10 : ℤ) - latestDay c4Videos ≤ 365 ∧ 1 ≤ validStatsCount c4Videos ∧
      ((deep_analyze_channel 10 c4Ch c4Videos).isNone = true ↔
        engagementRate c4Ch.stats.subscribers c4Videos < 2) :=
  ⟨by decide, by decide, by decide,
    C4_engagement_threshold 10 c4Ch c4Videos (by decide) (by decide) (by decide)⟩

/-- C5: with a non-empty upload sample and `d` days since the newest upload,
`d > 365` rejects the channel as dormant; for `d ≤ 365` (so in particular at
exactly 365) the channel is not rejected on recency — any rejection is for
lack of stats or low engagement; `180 < d ≤ 365` keeps the channel with
recency score `0.5`; `d ≤ 180` gives recency score `1.0`. -/
theorem C5_recency_rules (now : ℤ) (ch : ChannelInfo) (v : Video) (vs : List Video) :
    (365 < now - v.published_day → deep_analyze_channel now ch (v :: vs) = none) ∧
    (now - v.published_day ≤ 365 → deep_analyze_channel now ch (v :: vs) = none →
      validStatsCount (v :: vs) = 0 ∨ engagementRate ch.stats.subscribers (v :: vs) < 2) ∧
    (180 < now - v.published_day → now - v.published_day ≤ 365 →
      recencyScore (now - v.published_day) = 1/2) ∧
    (now - v.published_day ≤ 180 → recencyScore (now - v.published_day) = 1) := by
  have hl : latestDay (v :: vs) = v.published_day := rfl
  refine ⟨?_, ?_, ?_, ?_⟩
  · intro h
    rw [deep_analyze_channel, hl]
    simp only [List.isEmpty_cons, Bool.false_eq_true, if_false, if_pos h]
  · intro hd hnone
    rw [deep_analyze_channel, hl] at hnone
    simp only [List.isEmpty_cons, Bool.false_eq_true, if_false,
      if_neg (by omega : ¬ 365 < now - v.published_day)] at hnone
    by_cases h2 : validStatsCount (v :: vs) = 0
    · exact Or.inl h2
    rw [if_neg h2] at hnone
    by_cases h3 : engagementRate ch.stats.subscribers (v :: vs) < 2
    · exact Or.inr h3
    rw [if_neg h3] at hnone
    exact absurd hnone (by simp)
  · intro h1 h2
    rw [recencyScore, if_pos h1]
  · intro h
    rw [recencyScore, if_neg (by omega)]

/-- C5 witness: a channel whose newest upload is 400 days old is rejected
as dormant. -/
theorem C5_recency_rules_witness :
    365 < (1000 : ℤ) - c5Video.published_day ∧
      deep_analyze_channel 1000 c5Ch (c5Video :: []) = none :=
  ⟨by decide, (C5_recency_rules 1000 c5Ch c5Video []).1 (by decide)⟩

/-- C6: the minimum-size filter rejects exactly when `subscriberCount < 1000`
or `videoCount < 5` or the description strips to empty; a candidate with
exactly 1000 subscribers (and the other checks fine) passes; and a candidate
failing the size filter is rejected by the pipeline with nothing returned. -/
theorem C6_size_filter (now : ℤ) (ctx : Option String) (it : PageItem) :
    (passesSizeFilter (mkChannelInfo it) = false ↔
      (it.subscribers < 1000 ∨ it.video_count < 5 ∨
        (pyStrip it.description).isEmpty = true)) ∧
    (it.subscribers = 1000 → 5 ≤ it.video_count →
      (pyStrip it.description).isEmpty = false →
      passesSizeFilter (mkChannelInfo it) = true) ∧
    (passesSizeFilter (mkChannelInfo it) = false → processItem now ctx it = none) := by
  have hs : (mkChannelInfo it).stats.subscribers = it.subscribers := rfl
  have hv : (mkChannelInfo it).stats.video_count = it.video_count := rfl
  have hdm : (mkChannelInfo it).description = it.description := rfl
  refine ⟨?_, ?_, ?_⟩
  · rw [passesSizeFilter, hs, hv, hdm]
    split_ifs with h1 h2 h3
    · exact iff_of_true rfl (Or.inl h1)
    · exact iff_of_true rfl (Or.inr (Or.inl h2))
    · exact iff_of_true rfl (Or.inr (Or.inr h3))
    · refine iff_of_false (by simp) ?_
      rintro (h | h | h)
      · exact h1 h
      · exact h2 h
      · exact h3 h
  · intro he h5 hde
    rw [passesSizeFilter, hs, hv, hdm, he, if_neg (by omega), if_neg (by omega),
      if_neg (by simp [hde])]
  · intro h
    rw [processItem]
    split
    · rfl
    · simp [passesSizeFilter_applyContextBonus, h]

/-- C6 witness: a candidate with exactly 1000 subscribers, 10 videos and a
non-blank description passes the size filter. -/
theorem C6_size_filter_witness :
    c6Item.subscribers = 1000 ∧ passesSizeFilter (mkChannelInfo c6Item) = true :=
  ⟨rfl, (C6_size_filter 0 none c6Item).2.1 rfl (by decide) (by decide)⟩

/-- C7: a candidate whose title+description contains a blacklist term is
rejected by the pipeline regardless of every other field, and processing it
persists nothing and adds nothing to the results. -/
theorem C7_blacklist_rejects (now : ℤ) (ctx : Option String) (it : PageItem)
    (s : SessState) (h : blacklisted it = true) :
    processItem now ctx it = none ∧
    (pageStep now ctx it s).saves = s.saves ∧
    (pageStep now ctx it s).results = s.results := by
  have hp : processItem now ctx it = none := by rw [processItem, if_pos h]
  refine ⟨hp, ?_, ?_⟩ <;> (unfold pageStep; rw [hp])

/-- C7 witness: a channel titled with a gambling term and a million
subscribers is rejected with nothing persisted. -/
theorem C7_blacklist_rejects_witness :
    blacklisted c7Item = true ∧ c7Item.subscribers = 1000000 ∧
      processItem 0 none c7Item = none ∧
      (pageStep 0 none c7Item initState).saves = initState.saves ∧
      (pageStep 0 none c7Item initState).results = initState.results := by
  have h := C7_blacklist_rejects 0 none c7Item initState (by decide)
  exact ⟨by decide, rfl, h.1, h.2.1, h.2.2⟩

/-- The page loop never grows the results past the limit. -/
theorem processPage_results_le (now : ℤ) (ctx : Option String) (limit : Nat)
    (items : List PageItem) (s : SessState) (h : s.results.length ≤ limit) :
    (processPage now ctx limit items s).results.length ≤ limit := by
  induction items generalizing s with
  | nil => exact h
  | cons it rest ih =>
    rw [processPage]
    split
    · exact h
    next hlt =>
      apply ih
      rw [pageStep]
      split
      · simp
        omega
      · simpa using h

/-- The page loop does not touch the attempt counter. -/
theorem processPage_attempts (now : ℤ) (ctx : Option String) (limit : Nat)
    (items : List PageItem) (s : SessState) :
    (processPage now ctx limit items s).attempts = s.attempts := by
  induction items generalizing s with
  | nil => rfl
  | cons it rest ih =>
    rw [processPage]
    split
    · rfl
    · rw [ih]
      rw [pageStep]
      split <;> rfl

/-- Session invariant: results stay within the target and attempts within the
page budget of 20. -/
theorem searchGo_bounds (now : ℤ) (ctx : Option String) (limit : Nat)
    (env : List (Except Unit Page)) (s : SessState)
    (hres : s.results.length ≤ limit) (hatt : s.attempts ≤ 20) :
    (searchGo now ctx limit env s).results.length ≤ limit ∧
    (searchGo now ctx limit env s).attempts ≤ 20 := by
  induction env generalizing s with
  | nil => exact ⟨hres, hatt⟩
  | cons pg env ih =>
    cases pg with
    | error e =>
      rw [searchGo]
      by_cases hA : limit ≤ s.results.length
      · rw [if_pos hA]
        exact ⟨hres, hatt⟩
      rw [if_neg hA]
      by_cases hB : 20 ≤ s.attempts
      · rw [if_pos hB]
        exact ⟨hres, hatt⟩
      rw [if_neg hB]
      exact ⟨hres, by simp; omega⟩
    | ok p =>
      rw [searchGo]
      by_cases hA : limit ≤ s.results.length
      · rw [if_pos hA]
        exact ⟨hres, hatt⟩
      rw [if_neg hA]
      by_cases hB : 20 ≤ s.attempts
      · rw [if_pos hB]
        exact ⟨hres, hatt⟩
      rw [if_neg hB]
      by_cases hC : p.items.isEmpty = true
      · rw [if_pos hC]
        exact ⟨hres, by simp; omega⟩
      rw [if_neg hC]
      by_cases hD : p.nextPageToken = true
      · rw [if_pos hD]
        exact ih _ (processPage_results_le _ _ _ _ _ hres)
          (by rw [processPage_attempts]; simp; omega)
      · rw [if_neg hD]
        exact ⟨processPage_results_le _ _ _ _ _ hres,
          by rw [processPage_attempts]; simp; omega⟩

/-- C9: one keyword session returns at most `limit` qualified channels and
performs at most 20 page fetch attempts. -/
theorem C9_session_bounds (now : ℤ) (ctx : Option String)
    (env : List (Except Unit Page)) (limit : Nat) :
    (search_channels now ctx env limit).length ≤ limit ∧
      (runSession now ctx limit env).attempts ≤ 20 := by
  have h := searchGo_bounds now ctx limit env initState (by simp [initState]) (by simp [initState])
  exact ⟨h.1, h.2⟩

/-- C2 counterexample: when two keyword sessions of one orchestrator run both
surface the channel id `"dup"`, that id reaches the filter chain twice (its
count over the run is 2) — there is no shared dedup set, so the at-most-once
claim is false at this input. -/
theorem C2_dedup_counterexample :
    ¬ ((allEvals 0 none 5 [dupEnv, dupEnv]).count "dup" ≤ 1) := by decide

/-- C2 (amended): sessions of one orchestrator run share no dedup state; the
number of times an id reaches the filter chain over the whole run is the sum
of the times each keyword session evaluates it, so an id surfaced by two
sessions is evaluated once per session. -/
theorem C2_no_shared_dedup (now : ℤ) (ctx : Option String) (limit : Nat)
    (envs : List (List (Except Unit Page))) (i : String) :
    (allEvals now ctx limit envs).count i =
      (envs.map (fun env => ((runSession now ctx limit env).evals).count i)).sum := by
  induction envs with
  | nil => rfl
  | cons e es ih =>
    simp only [allEvals, orchestrate, List.map_cons, List.flatten_cons, List.count_append,
      List.sum_cons] at ih ⊢
    rw [ih]

/-- C3 counterexample: a transient failure on the first page prevents the
second page's candidate from ever reaching the filter chain — the session
does not continue with the next page, refuting the claim. -/
theorem C3_failure_counterexample :
    (runSession 0 none 5 [Except.error (), Except.ok c3Page]).evals = [] ∧
      (runSession 0 none 5 [Except.ok c3Page]).evals = ["dup"] :=
  ⟨by decide, by decide⟩

/-- C3 (amended): a transient failure on a batch call terminates the
session's discovery loop immediately: the session returns with exactly the
results, evaluations and saves accumulated before the failure (only the
attempt counter advances), and no later page of its environment is processed;
the failure does not propagate out of the session. -/
theorem C3_failure_breaks_loop (now : ℤ) (ctx : Option String) (limit : Nat)
    (env : List (Except Unit Page)) (s : SessState)
    (hres : s.results.length < limit) (hatt : s.attempts < 20) :
    searchGo now ctx limit (Except.error () :: env) s =
      { s with attempts := s.attempts + 1 } := by
  rw [searchGo, if_neg (by omega), if_neg (by omega)]

/-- C3 witness: the break behaviour at the initial state. -/
theorem C3_failure_breaks_loop_witness :
    searchGo 0 none 5 [Except.error ()] initState = { initState with attempts := 1 } :=
  C3_failure_breaks_loop 0 none 5 [] initState (by decide) (by decide)

/-- The deep analysis is unaffected by the context soft-score step. -/
theorem deep_analyze_applyContextBonus (now : ℤ) (ctx : Option String) (it : PageItem)
    (ci : ChannelInfo) (videos : List Video) :
    deep_analyze_channel now (applyContextBonus ctx it ci) videos =
      deep_analyze_channel now ci videos := by
  cases ctx with
  | none => rfl
  | some k =>
    by_cases h : pyIn k (fullText it) = true
    · simp only [applyContextBonus, if_pos h]
      exact deep_analyze_channel_inma_score now ci _ videos
    · simp only [applyContextBonus, if_neg h]

/-- The per-candidate pipeline output is independent of the context keyword:
the +10 bonus only mutates the transient candidate score that the final
profile never reads. -/
theorem processItem_context_free (now : ℤ) (ctx : Option String) (it : PageItem) :
    processItem now ctx it = processItem now none it := by
  rw [processItem, processItem]
  split
  · rfl
  · simp only [passesSizeFilter_applyContextBonus, deep_analyze_applyContextBonus]

/-- C1: the claim fails on the code (a code bug): the persisted profile is
entirely independent of the context keyword.  `search_channels` adds the +10
bonus to the candidate's transient `inma_score`, but `deep_analyze_channel`
rebuilds the final profile from scratch, so the stored score is
`round(engagementRate*10*consistencyMultiplier*recencyScore, 2)` without the
bonus.  The second conjunct evaluates the pipeline on a qualifying candidate
whose title contains the context keyword `"의류"` (engagement 3%, consistency
1.5, recency 1.0): the stored `inma_score` is 45, not the 55 the claim
requires. -/
theorem C1_context_bonus_never_persisted :
    (∀ (now : ℤ) (ctx : Option String) (it : PageItem),
      processItem now ctx it = processItem now none it) ∧
    (processItem 1000 (some "의류") c1Item).map FinalProfile.inma_score = some 45 := by
  refine ⟨processItem_context_free, ?_⟩
  rw [processItem_context_free, processItem,
    if_neg (by decide : ¬ blacklisted c1Item = true),
    if_pos (by decide :
      passesSizeFilter (applyContextBonus none c1Item (mkChannelInfo c1Item)) = true)]
  show (deep_analyze_channel 1000 (mkChannelInfo c1Item) c1Videos).map
    FinalProfile.inma_score = some 45
  have h1 : c1Videos.isEmpty = false := by decide
  have h2 : (1000 : ℤ) - latestDay c1Videos = 2 := by decide
  have h3 : recencyScore 2 = 1 := by rw [recencyScore]; norm_num
  have h4 : validStatsCount c1Videos = 5 := by decide
  have h5 : totalViews c1Videos = 750 := by decide
  have hAV : avgViews c1Videos = 150 := by rw [avgViews, h4, h5]; norm_num
  have hsub : (mkChannelInfo c1Item).stats.subscribers = 5000 := rfl
  have hER : engagementRate 5000 c1Videos = 3 := by rw [engagementRate, hAV]; norm_num
  have hgaps : gaps (c1Videos.map Video.published_day) = [6, 6, 6, 6] := by decide
  have hAI : avgInterval c1Videos = 6 := by rw [avgInterval, hgaps]; norm_num
  have hCM : consistencyMultiplier 6 = 3/2 := by rw [consistencyMultiplier]; norm_num
  have hPR2 : pyRound2 (3 * 10 * (3/2) * 1) = 45 := by rw [pyRound2, bankersRound]; norm_num
  rw [deep_analyze_channel, h1, h2, hsub]
  simp only [Bool.false_eq_true, if_false, if_neg (by norm_num : ¬ (365:ℤ) < 2),
    h3, h4, hER, hAI, hCM, hPR2, Option.map_some]
  norm_num

/-- The recency score is one of 0.5 and 1.0. -/
theorem recencyScore_val (d : ℤ) : recencyScore d = 1/2 ∨ recencyScore d = 1 := by
  rw [recencyScore]
  split
  · exact Or.inl rfl
  · exact Or.inr rfl

/-- The consistency multiplier is at least 1. -/
theorem one_le_consistencyMultiplier (a : ℚ) : 1 ≤ consistencyMultiplier a := by
  rw [consistencyMultiplier]
  split
  · norm_num
  · split <;> norm_num

/-- Banker's rounding never rounds below the floor. -/
theorem floor_le_bankersRound (y : ℚ) : ⌊y⌋ ≤ bankersRound y := by
  rw [bankersRound]
  split
  · omega
  · split
    · omega
    · split <;> omega

/-- `round(x, 2)` does not fall below an integer bound on `x`. -/
theorem le_pyRound2 {x : ℚ} {n : ℤ} (h : (n : ℚ) ≤ x) : (n : ℚ) ≤ pyRound2 x := by
  rw [pyRound2, le_div_iff₀ (by norm_num : (0:ℚ) < 100)]
  have h1 : (100 * n : ℤ) ≤ ⌊x * 100⌋ := by
    rw [Int.le_floor]
    push_cast
    nlinarith
  have h2 : (100 * n : ℤ) ≤ bankersRound (x * 100) :=
    le_trans h1 (floor_le_bankersRound (x * 100))
  calc (n : ℚ) * 100 = ((100 * n : ℤ) : ℚ) := by push_cast; ring
  _ ≤ (bankersRound (x * 100) : ℚ) := by exact_mod_cast h2

/-- C10: every profile produced by the deep analysis carries a score of at
least 10: the engagement rate passed the 2% gate, the score multiplies it by
10, the consistency multiplier is at least 1, and the recency score is at
least 0.5, so the rounded product is at least 2 * 10 * 1 * 0.5 = 10. -/
theorem C10_min_score (now : ℤ) (ch : ChannelInfo) (videos : List Video)
    (p : FinalProfile) (h : deep_analyze_channel now ch videos = some p) :
    10 ≤ p.inma_score := by
  rw [deep_analyze_channel] at h
  by_cases h1 : videos.isEmpty = true
  · rw [if_pos h1] at h
    exact absurd h (by simp)
  rw [if_neg h1] at h
  by_cases hd : 365 < now - latestDay videos
  · rw [if_pos hd] at h
    exact absurd h (by simp)
  rw [if_neg hd] at h
  by_cases h2 : validStatsCount videos = 0
  · rw [if_pos h2] at h
    exact absurd h (by simp)
  rw [if_neg h2] at h
  by_cases h3 : engagementRate ch.stats.subscribers videos < 2
  · rw [if_pos h3] at h
    exact absurd h (by simp)
  rw [if_neg h3] at h
  injection h with h'
  subst h'
  show 10 ≤ pyRound2 (engagementRate ch.stats.subscribers videos * 10 *
    consistencyMultiplier (avgInterval videos) * recencyScore (now - latestDay videos))
  have her : (2:ℚ) ≤ engagementRate ch.stats.subscribers videos := not_lt.mp h3
  have hcm := one_le_consistencyMultiplier (avgInterval videos)
  have hbase : (10:ℚ) ≤ engagementRate ch.stats.subscribers videos * 10 *
      consistencyMultiplier (avgInterval videos) * recencyScore (now - latestDay videos) := by
    have t1 : (20:ℚ) ≤ engagementRate ch.stats.subscribers videos * 10 *
        consistencyMultiplier (avgInterval videos) := by nlinarith
    rcases recencyScore_val (now - latestDay videos) with hr | hr <;> rw [hr] <;> linarith
  have h10 : ((10 : ℤ) : ℚ) ≤ pyRound2 (engagementRate ch.stats.subscribers videos * 10 *
      consistencyMultiplier (avgInterval videos) * recencyScore (now - latestDay videos)) :=
    le_pyRound2 (by push_cast; linarith)
  exact_mod_cast h10

/-- The concrete deep-analysis evaluation used by the C10 witness: a
50-subscriber channel with one 100-view recent upload qualifies with
engagement 200%, consistency 1.0, recency 1.0 and stored score 2000. -/
theorem deep_analyze_wCh_eval : deep_analyze_channel 1000 wCh [okVideo] = some wProf := by
  have h1 : ([okVideo] : List Video).isEmpty = false := by decide
  have h2 : (1000 : ℤ) - latestDay [okVideo] = 2 := by decide
  have h3 : recencyScore 2 = 1 := by rw [recencyScore]; norm_num
  have h4 : validStatsCount [okVideo] = 1 := by decide
  have h5 : totalViews [okVideo] = 100 := by decide
  have h6 : extractKeywords (([okVideo].take 5).map Video.title) = [] := by decide
  have h7 : avgInterval [okVideo] = 30 := by rw [avgInterval]; norm_num [gaps]
  have hsub : wCh.stats.subscribers = 50 := by decide
  have hAV : avgViews [okVideo] = 100 := by rw [avgViews, h4, h5]; norm_num
  have hER : engagementRate 50 [okVideo] = 200 := by rw [engagementRate, hAV]; norm_num
  have hCM : consistencyMultiplier 30 = 1 := by rw [consistencyMultiplier]; norm_num
  have hPI : pyInt 100 = 100 := by rw [pyInt]; norm_num
  have hPR1 : pyRound1 30 = 30 := by rw [pyRound1, bankersRound]; norm_num
  have hPR2 : pyRound2 (200 * 10 * 1 * 1) = 2000 := by rw [pyRound2, bankersRound]; norm_num
  rw [deep_analyze_channel, h1, h2, hsub]
  simp only [Bool.false_eq_true, if_false, if_neg (by norm_num : ¬ (365:ℤ) < 2),
    h3, h4, hER, h7, hCM, h6, hAV, hPI, hPR1, hPR2]
  norm_num [wProf]
  exact ⟨rfl, rfl, rfl, rfl⟩

/-- C10 witness: the hypothesis holds at a concrete qualifying channel, whose
profile indeed scores at least 10. -/
theorem C10_min_score_witness :
    deep_analyze_channel 1000 wCh [okVideo] = some wProf ∧ 10 ≤ wProf.inma_score :=
  ⟨deep_analyze_wCh_eval, C10_min_score 1000 wCh [okVideo] wProf deep_analyze_wCh_eval⟩

/-! ## Store lemmas for the idempotent-upsert claim -/

/-- Unfolding `lookupDoc` over a cons cell. -/
theorem lookupDoc_cons (a : FinalProfile) (l : List FinalProfile) (i : String) :
    lookupDoc (a :: l) i = if a.id = i then some a else lookupDoc l i := by
  rw [lookupDoc, lookupDoc]
  by_cases h : a.id = i
  · rw [List.find?_cons_of_pos _ (by simpa using h), if_pos h]
  · rw [List.find?_cons_of_neg _ (by simpa using h), if_neg h]

/-- An id absent from the store has no document. -/
theorem lookupDoc_eq_none (st : List FinalProfile) (i : String)
    (h : i ∉ st.map FinalProfile.id) : lookupDoc st i = none := by
  induction st with
  | nil => rfl
  | cons a t ih =>
    simp only [List.map_cons, List.mem_cons, not_or] at h
    rw [lookupDoc_cons, if_neg (fun e => h.1 e.symm)]
    exact ih h.2

/-- The ids after an upsert: unchanged when the id already exists,
appended otherwise. -/
theorem ids_update_one (st : List FinalProfile) (doc : FinalProfile) :
    (update_one st doc).map FinalProfile.id =
      if doc.id ∈ st.map FinalProfile.id then st.map FinalProfile.id
      else st.map FinalProfile.id ++ [doc.id] := by
  induction st with
  | nil => simp [update_one]
  | cons d rest ih =>
    rw [update_one]
    by_cases h : d.id = doc.id
    · rw [if_pos (beq_iff_eq.mpr h)]
      simp [h.symm]
    · rw [if_neg (by simpa using h)]
      simp only [List.map_cons, ih]
      by_cases hm : doc.id ∈ rest.map FinalProfile.id
      · rw [if_pos hm, if_pos (by simp [hm])]
      · have hnm : doc.id ∉ d.id :: rest.map FinalProfile.id := by
          simp only [List.mem_cons, not_or]
          exact ⟨fun e => h e.symm, hm⟩
        rw [if_neg hm, if_neg hnm]
        simp

/-- An upsert never duplicates ids. -/
theorem nodup_ids_update_one (st : List FinalProfile) (doc : FinalProfile)
    (h : (st.map FinalProfile.id).Nodup) :
    ((update_one st doc).map FinalProfile.id).Nodup := by
  rw [ids_update_one]
  split
  · exact h
  next hm => simp [List.nodup_append, h, hm]

/-- Lookup after an upsert: the written document for its id, unchanged
otherwise. -/
theorem lookupDoc_update_one (st : List FinalProfile) (doc : FinalProfile) (i : String) :
    lookupDoc (update_one st doc) i = if doc.id = i then some doc else lookupDoc st i := by
  induction st with
  | nil => rw [update_one, lookupDoc_cons]
  | cons d rest ih =>
    rw [update_one]
    by_cases hd : d.id = doc.id
    · rw [if_pos (beq_iff_eq.mpr hd), lookupDoc_cons, lookupDoc_cons]
      by_cases h : doc.id = i
      · rw [if_pos h, if_pos h]
      · rw [if_neg h, if_neg h, if_neg (fun e => h (hd ▸ e))]
    · rw [if_neg (by simpa using hd), lookupDoc_cons, ih, lookupDoc_cons]
      by_cases h2 : d.id = i
      · by_cases h : doc.id = i
        · exact absurd (h2.trans h.symm) hd
        · rw [if_pos h2, if_neg h, if_pos h2]
      · by_cases h : doc.id = i
        · rw [if_neg h2, if_pos h, if_pos h]
        · rw [if_neg h2, if_neg h, if_neg h, if_neg h2]

/-- Lookup after a run of upserts: the last write for the id wins, otherwise
the prior store answers. -/
theorem lookupDoc_applyRun (saves : List FinalProfile) (st : List FinalProfile) (i : String) :
    lookupDoc (applyRun st saves) i =
      match lastWrite saves i with
      | some d => some d
      | none => lookupDoc st i := by
  induction saves generalizing st with
  | nil => rfl
  | cons d rest ih =>
    rw [applyRun, List.foldl_cons,
      show rest.foldl update_one (update_one st d) = applyRun (update_one st d) rest from rfl,
      ih, lastWrite]
    cases hlw : lastWrite rest i with
    | some e => rfl
    | none =>
      rw [lookupDoc_update_one]
      by_cases h : d.id = i
      · rw [if_pos h, if_pos h]
      · rw [if_neg h, if_neg h]

/-- A store is determined by its id sequence and its per-id lookups. -/
theorem store_ext (st₁ : List FinalProfile) (st₂ : List FinalProfile)
    (hn : (st₁.map FinalProfile.id).Nodup)
    (hids : st₁.map FinalProfile.id = st₂.map FinalProfile.id)
    (hl : ∀ i, lookupDoc st₁ i = lookupDoc st₂ i) : st₁ = st₂ := by
  induction st₁ generalizing st₂ with
  | nil =>
    cases st₂ with
    | nil => rfl
    | cons b t₂ => simp at hids
  | cons a t₁ ih =>
    cases st₂ with
    | nil => simp at hids
    | cons b t₂ =>
      simp only [List.map_cons, List.cons.injEq] at hids
      obtain ⟨hab, ht⟩ := hids
      have h1 := hl a.id
      rw [lookupDoc_cons, lookupDoc_cons, if_pos rfl, if_pos hab.symm] at h1
      injection h1 with hab2
      have hna : a.id ∉ t₁.map FinalProfile.id := (List.nodup_cons.mp hn).1
      have hn' : (t₁.map FinalProfile.id).Nodup := (List.nodup_cons.mp hn).2
      rw [← hab2]
      refine congrArg (List.cons a) (ih t₂ hn' ht ?_)
      intro i
      by_cases hi : a.id = i
      · rw [← hi, lookupDoc_eq_none t₁ a.id hna, lookupDoc_eq_none t₂ a.id (ht ▸ hna)]
      · have h2 := hl i
        rw [lookupDoc_cons, lookupDoc_cons, if_neg hi, if_neg (fun e => hi (hab ▸ e))] at h2
        exact h2

/-- The upserted document's id is present afterwards. -/
theorem mem_ids_update_one (st : List FinalProfile) (doc : FinalProfile) :
    doc.id ∈ (update_one st doc).map FinalProfile.id := by
  rw [ids_update_one]
  split
  next h => exact h
  · simp

/-- Upserts never remove ids. -/
theorem ids_mono_update_one (st : List FinalProfile) (doc : FinalProfile) (i : String)
    (h : i ∈ st.map FinalProfile.id) :
    i ∈ (update_one st doc).map FinalProfile.id := by
  rw [ids_update_one]
  split
  · exact h
  · exact List.mem_append_left _ h

/-- Runs of upserts never remove ids. -/
theorem ids_mono_applyRun (saves : List FinalProfile) (st : List FinalProfile) (i : String)
    (h : i ∈ st.map FinalProfile.id) :
    i ∈ (applyRun st saves).map FinalProfile.id := by
  induction saves generalizing st with
  | nil => exact h
  | cons d rest ih =>
    rw [applyRun, List.foldl_cons]
    exact ih _ (ids_mono_update_one _ _ _ h)

/-- Every saved document's id is present after replaying the saves. -/
theorem saved_mem_ids_applyRun (saves : List FinalProfile) (st : List FinalProfile)
    (p : FinalProfile) (hp : p ∈ saves) :
    p.id ∈ (applyRun st saves).map FinalProfile.id := by
  induction saves generalizing st with
  | nil => cases hp
  | cons d rest ih =>
    rw [applyRun, List.foldl_cons]
    rcases List.mem_cons.mp hp with rfl | hp
    · exact ids_mono_applyRun rest _ _ (mem_ids_update_one st p)
    · exact ih _ hp

/-- Replaying saves whose ids are all present leaves the id sequence fixed. -/
theorem ids_applyRun_of_mem (saves : List FinalProfile) (st : List FinalProfile)
    (h : ∀ p ∈ saves, p.id ∈ st.map FinalProfile.id) :
    (applyRun st saves).map FinalProfile.id = st.map FinalProfile.id := by
  induction saves generalizing st with
  | nil => rfl
  | cons d rest ih =>
    rw [applyRun, List.foldl_cons]
    have h1 : (update_one st d).map FinalProfile.id = st.map FinalProfile.id := by
      rw [ids_update_one, if_pos (h d (List.mem_cons_self _ _))]
    rw [show rest.foldl update_one (update_one st d) = applyRun (update_one st d) rest from rfl]
    rw [ih _ (fun p hp => h1 ▸ h p (List.mem_cons_of_mem _ hp)), h1]

/-- A run of upserts keeps ids duplicate-free. -/
theorem nodup_ids_applyRun (saves : List FinalProfile) (st : List FinalProfile)
    (h : (st.map FinalProfile.id).Nodup) :
    ((applyRun st saves).map FinalProfile.id).Nodup := by
  induction saves generalizing st with
  | nil => exact h
  | cons d rest ih =>
    rw [applyRun, List.foldl_cons]
    exact ih _ (nodup_ids_update_one _ _ h)

/-- Replaying the same saves a second time changes nothing. -/
theorem applyRun_twice (s : List FinalProfile) :
    applyRun (applyRun [] s) s = applyRun [] s := by
  refine store_ext _ _
    (nodup_ids_applyRun s _ (nodup_ids_applyRun s [] List.nodup_nil)) ?_ ?_
  · exact ids_applyRun_of_mem s _ (fun p hp => saved_mem_ids_applyRun s [] p hp)
  · intro i
    rw [lookupDoc_applyRun, lookupDoc_applyRun]
    cases lastWrite s i <;> rfl

/-- C8: persisting is an idempotent upsert keyed by channel id.  Replaying
one pipeline run's writes a second time (identical external responses give
identical writes) leaves the store unchanged; the store holds no two
documents with the same id; and every id the pipeline saved is present. -/
theorem C8_upsert_idempotent (now : ℤ) (ctx : Option String) (limit : Nat)
    (env : List (Except Unit Page)) :
    applyRun (applyRun [] (runSession now ctx limit env).saves)
        (runSession now ctx limit env).saves =
      applyRun [] (runSession now ctx limit env).saves ∧
    ((applyRun [] (runSession now ctx limit env).saves).map FinalProfile.id).Nodup ∧
    ((runSession now ctx limit env).saves).all
      (fun p => ((applyRun [] (runSession now ctx limit env).saves).map
        FinalProfile.id).contains p.id) = true := by
  refine ⟨applyRun_twice _, nodup_ids_applyRun _ [] List.nodup_nil, ?_⟩
  rw [List.all_eq_true]
  intro p hp
  exact List.elem_eq_true_of_mem (saved_mem_ids_applyRun _ [] p hp)

end InmaCollector
